import Mathlib

/-!
# Shared-memory export: the reader client of `libgps_shm.c`

A shallow embedding of `gps_shm_open`, `gps_shm_read` and `gps_shm_close`.

* Pointers are natural numbers below `2 ^ 64` (LP64); `NULL` is `0` and the failure value of
  `shmat`, `(void *)-1`, is `2 ^ 64 - 1`.
* C `int` values are integers; conversions to a narrower signed type keep the low bits
  (`wrapInt`).
* `*gpsdata` is passed explicitly: every operation returns the caller's structure as the call
  leaves it.
* The kernel side (`shmget`, `shmat`, `shmdt`) is the process state `Proc`: the addresses at
  which the segment is currently attached, and the log of the `shmdt` calls issued.
* What the three accesses of `gps_shm_read` load through the attachment is an argument of type
  `shmexport_t`: `bookend1` as loaded before the copy, `gpsdata` as the bulk copy saw it,
  `bookend2` as loaded after the copy.  When nobody writes during the call this is the content
  of the segment.
-/

namespace GpsShm

/-! ## Machine model -/

/-- The null pointer. -/
def NULL : Nat := 0

/-- The value `(void *)-1` that `shmat` returns on failure. -/
def SHM_FAILED : Nat := 2 ^ 64 - 1

/-- Alignment of the addresses `shmat` chooses when called with `shmaddr = 0`. -/
def SHMLBA : Nat := 4096

/-- Two's complement reading of the low `bits` bits of `x`. -/
def wrapInt (bits : Nat) (x : Int) : Int :=
  (x + 2 ^ (bits - 1)) % 2 ^ bits - 2 ^ (bits - 1)

/-- The cast `(int)(long)p` of a pointer: through the 64-bit `long` down to the 32-bit `int`. -/
def int_of_ptr (p : Nat) : Int :=
  wrapInt 32 (wrapInt 64 (p : Int))

/-! ## Data model -/

/-- The members of `struct gps_fix_t` read in `send_dbus_fix`.  A `double` is carried as its
IEEE-754 binary64 bit pattern, which is what a byte copy moves. -/
structure gps_fix_t where
  time : Nat
  mode : Int
  ept : Nat
  latitude : Nat
  longitude : Nat
  eph : Nat
  altitude : Nat
  epv : Nat
  track : Nat
  epd : Nat
  speed : Nat
  eps : Nat
  climb : Nat
  epc : Nat
  separation : Nat
deriving DecidableEq, Repr

/-- The structure `struct gps_data_t`: the fix, the members declared in `gps.h` that the
reader client never names (`rest`, of an arbitrary type `R`), and the private pointer. -/
structure gps_data_t (R : Type) where
  fix : gps_fix_t
  rest : R
  privdata : Nat
deriving DecidableEq, Repr

/-- The structure `struct shmexport_t`, the layout of the segment: two bookends around one
`struct gps_data_t`. -/
structure shmexport_t (R : Type) where
  bookend1 : Int
  gpsdata : gps_data_t R
  bookend2 : Int
deriving DecidableEq, Repr

/-- Kernel-side state of the calling process. -/
structure Proc where
  /-- addresses at which the segment is attached -/
  attached : List Nat
  /-- arguments of the `shmdt` calls issued so far, oldest first -/
  shmdt_calls : List Nat
deriving DecidableEq, Repr

/-- Effect of `shmat(shmid, 0, 0)` returning `addr`: unless it failed, the segment is attached
at `addr`. -/
def shmat (proc : Proc) (addr : Nat) : Proc :=
  if addr = SHM_FAILED then proc
  else { proc with attached := addr :: proc.attached }

/-- Effect of `shmdt(addr)`: the call is issued; an attachment at `addr` is removed, and when
there is none the call fails with `EINVAL` and changes nothing. -/
def shmdt (proc : Proc) (addr : Nat) : Proc :=
  { attached := proc.attached.erase addr, shmdt_calls := proc.shmdt_calls ++ [addr] }

/-- What `shmat(shmid, 0, 0)` can return: `(void *)-1`, or an address aligned to `SHMLBA`. -/
def shmat_can_return (addr : Nat) : Prop :=
  addr = SHM_FAILED ∨ (addr < 2 ^ 64 ∧ addr % SHMLBA = 0)

instance (addr : Nat) : Decidable (shmat_can_return addr) :=
  inferInstanceAs (Decidable (_ ∨ _))

/-! ## The reader client -/

/-- Result of `gps_shm_open`. -/
structure OpenOut (R : Type) where
  ret : Int
  gpsdata : gps_data_t R
  proc : Proc
deriving DecidableEq, Repr

/-- The function `gps_shm_open`.  `shmid` is what `shmget` returns and `shmat_ret` what `shmat`
returns if it is called. -/
def gps_shm_open {R : Type} (gpsdata : gps_data_t R) (shmid : Int) (shmat_ret : Nat)
    (proc : Proc) : OpenOut R :=
  let gpsdata := { gpsdata with privdata := NULL }
  if shmid = -1 then
    { ret := -1, gpsdata := gpsdata, proc := proc }
  else
    let proc := shmat proc shmat_ret
    let gpsdata := { gpsdata with privdata := shmat_ret }
    if int_of_ptr gpsdata.privdata = -1 then
      { ret := -2, gpsdata := gpsdata, proc := proc }
    else
      { ret := 0, gpsdata := gpsdata, proc := proc }

/-- Result of `gps_shm_read`: the returned `int` (`none` when the call dereferences an address
with no attachment and so does not return), the caller's structure, and the addresses
dereferenced, in order. -/
structure ReadOut (R : Type) where
  ret : Option Int
  gpsdata : gps_data_t R
  derefs : List Nat
deriving DecidableEq, Repr

/-- The function `gps_shm_read`.  `shared` is what the loads through `gpsdata->privdata`
observe when the segment is attached there; when nothing is attached at that address the first
load, `shared->bookend1`, is an invalid access and the call does not return. -/
def gps_shm_read {R : Type} (gpsdata : gps_data_t R) (proc : Proc) (shared : shmexport_t R) :
    ReadOut R :=
  if gpsdata.privdata = NULL then
    { ret := some (-1), gpsdata := gpsdata, derefs := [] }
  else
    let sharedp := gpsdata.privdata
    if sharedp ∈ proc.attached then
      let before := shared.bookend1
      let gpsdata := shared.gpsdata
      let after := shared.bookend2
      let gpsdata := { gpsdata with privdata := sharedp }
      { ret := some (if before = after then 0 else -1), gpsdata := gpsdata,
        derefs := [sharedp, sharedp, sharedp] }
    else
      { ret := none, gpsdata := gpsdata, derefs := [sharedp] }

/-- The function `gps_shm_close`.  It writes nothing to `*gpsdata`, which is returned as it
was. -/
def gps_shm_close {R : Type} (gpsdata : gps_data_t R) (proc : Proc) : gps_data_t R × Proc :=
  if gpsdata.privdata ≠ NULL then
    (gpsdata, shmdt proc gpsdata.privdata)
  else
    (gpsdata, proc)

/-- A handle with a live attachment: the private pointer is not `NULL` and the segment is
attached at it. -/
def Attached {R : Type} (gpsdata : gps_data_t R) (proc : Proc) : Prop :=
  gpsdata.privdata ≠ NULL ∧ gpsdata.privdata ∈ proc.attached

instance {R : Type} (gpsdata : gps_data_t R) (proc : Proc) : Decidable (Attached gpsdata proc) :=
  inferInstanceAs (Decidable (_ ∧ _))

/-- A caller polling: one `gps_shm_read` per observation, each on the structure the previous
call left. -/
def read_all {R : Type} (gpsdata : gps_data_t R) (proc : Proc) :
    List (shmexport_t R) → gps_data_t R
  | [] => gpsdata
  | shared :: more => read_all (gps_shm_read gpsdata proc shared).gpsdata proc more

/-! ## The writer's publish cycle -/

/-- Modelled from the spec: step 2 of the Writer Publisher's cycle (the writer, `shmexport.c`,
is not among the sources): `bookend_a := current + 1`, wrapping at the counter width. -/
def publish_step2 {R : Type} (bits : Nat) (seg : shmexport_t R) : shmexport_t R :=
  { seg with bookend1 := wrapInt bits (seg.bookend1 + 1) }

/-- Modelled from the spec: step 3 of the Writer Publisher's cycle, as far as it has got: the
payload holds `payload`, any mix of the old and the new structure. -/
def publish_step3 {R : Type} (seg : shmexport_t R) (payload : gps_data_t R) : shmexport_t R :=
  { seg with gpsdata := payload }

/-- Modelled from the spec: step 4 of the Writer Publisher's cycle: `bookend_b := next`. -/
def publish_step4 {R : Type} (seg : shmexport_t R) : shmexport_t R :=
  { seg with bookend2 := seg.bookend1 }

/-! ## Sample data -/

/-- A fix with every member zero. -/
def fix0 : gps_fix_t :=
  { time := 0, mode := 0, ept := 0, latitude := 0, longitude := 0, eph := 0, altitude := 0,
    epv := 0, track := 0, epd := 0, speed := 0, eps := 0, climb := 0, epc := 0,
    separation := 0 }

/-- The bit pattern of the `double` 37.0. -/
def lat37 : Nat := 0x4042800000000000

/-- A 3D fix at latitude 37.0000. -/
def fix37 : gps_fix_t := { fix0 with mode := 3, latitude := lat37 }

/-- A caller's structure before any open: zeroed fix, stale private pointer. -/
def fresh : gps_data_t Unit := { fix := fix0, rest := (), privdata := 0xdead0 }

/-- A process with nothing attached. -/
def proc0 : Proc := { attached := [], shmdt_calls := [] }

/-- The segment as the writer leaves it after publishing generation `gen` with latitude
37.0000; the writer's own private pointer is `NULL`. -/
def seg37 (gen : Int) : shmexport_t Unit :=
  { bookend1 := gen, gpsdata := { fix := fix37, rest := (), privdata := NULL }, bookend2 := gen }

/-- A successful open: the lookup returns id 1, the attach returns address `0x7f0000001000`. -/
def opened : OpenOut Unit := gps_shm_open fresh 1 0x7f0000001000 proc0

/-- An open whose lookup fails. -/
def absent : OpenOut Unit := gps_shm_open fresh (-1) 0 proc0

/-- An open whose lookup succeeds and whose attach fails. -/
def denied : OpenOut Unit := gps_shm_open fresh 1 SHM_FAILED proc0

/-- An observation torn by a publish: generation 6 before the copy, 7 after it. -/
def torn67 : shmexport_t Unit :=
  { bookend1 := 6, gpsdata := { fix := fix37, rest := (), privdata := 0x1234 }, bookend2 := 7 }

/-! ## Lemmas on the machine model -/

theorem wrapInt_succ_ne (bits : Nat) (hbits : 0 < bits) (n : Int) :
    wrapInt bits (n + 1) ≠ n := by
  intro h
  unfold wrapInt at h
  have hm : (2 : Int) ≤ 2 ^ bits := by
    obtain ⟨k, rfl⟩ : ∃ k, bits = k + 1 := ⟨bits - 1, by omega⟩
    have : (0 : Int) < 2 ^ k := by positivity
    rw [pow_succ]
    omega
  generalize (2 : Int) ^ (bits - 1) = half at h
  generalize (2 : Int) ^ bits = m at h hm
  have h1 : (n + 1 + half) % m = n + half := by omega
  have h2 : (n + 1 + half) % m % m = (n + half) % m := by rw [h1]
  rw [Int.emod_emod_of_dvd _ (dvd_refl m)] at h2
  have h3 : m ∣ (n + 1 + half) - (n + half) :=
    Int.dvd_of_emod_eq_zero (Int.emod_eq_emod_iff_emod_sub_eq_zero.mp h2)
  have h4 : (n + 1 + half) - (n + half) = 1 := by ring
  rw [h4] at h3
  have := Int.le_of_dvd one_pos h3
  omega

theorem int_of_ptr_failed : int_of_ptr SHM_FAILED = -1 := by
  decide

theorem int_of_ptr_aligned (addr : Nat) (hal : addr % SHMLBA = 0) :
    int_of_ptr addr ≠ -1 := by
  unfold int_of_ptr wrapInt
  unfold SHMLBA at hal
  norm_num
  omega

/-- The cast keeps only the low 32 bits: an address that is not `(void *)-1` but ends in 32
one bits is taken for it.  No aligned address does. -/
theorem int_of_ptr_low_bits : int_of_ptr 0x1ffffffff = -1 ∧ 0x1ffffffff ≠ SHM_FAILED := by
  decide

theorem int_of_ptr_can_return (addr : Nat) (h : shmat_can_return addr) :
    int_of_ptr addr = -1 ↔ addr = SHM_FAILED := by
  constructor
  · intro h1
    rcases h with h | ⟨_, hal⟩
    · exact h
    · exact absurd h1 (int_of_ptr_aligned addr hal)
  · rintro rfl
    exact int_of_ptr_failed

theorem gps_shm_read_attached {R : Type} (gpsdata : gps_data_t R) (proc : Proc)
    (shared : shmexport_t R) (h : Attached gpsdata proc) :
    gps_shm_read gpsdata proc shared =
      { ret := some (if shared.bookend1 = shared.bookend2 then 0 else -1),
        gpsdata := { shared.gpsdata with privdata := gpsdata.privdata },
        derefs := [gpsdata.privdata, gpsdata.privdata, gpsdata.privdata] } := by
  obtain ⟨h1, h2⟩ := h
  simp [gps_shm_read, h1, h2]

theorem gps_shm_read_null {R : Type} (gpsdata : gps_data_t R) (proc : Proc)
    (shared : shmexport_t R) (h : gpsdata.privdata = NULL) :
    gps_shm_read gpsdata proc shared = { ret := some (-1), gpsdata := gpsdata, derefs := [] } := by
  simp [gps_shm_read, h]

theorem gps_shm_read_privdata {R : Type} (gpsdata : gps_data_t R) (proc : Proc)
    (shared : shmexport_t R) :
    (gps_shm_read gpsdata proc shared).gpsdata.privdata = gpsdata.privdata := by
  unfold gps_shm_read
  by_cases h1 : gpsdata.privdata = NULL
  · simp [h1]
  · by_cases h2 : gpsdata.privdata ∈ proc.attached
    · simp [h1, h2]
    · simp [h1, h2]

theorem read_all_privdata {R : Type} (proc : Proc) (obs : List (shmexport_t R)) :
    ∀ gpsdata : gps_data_t R, (read_all gpsdata proc obs).privdata = gpsdata.privdata := by
  induction obs with
  | nil => intro gpsdata; rfl
  | cons shared more ih =>
    intro gpsdata
    rw [read_all, ih, gps_shm_read_privdata]

/-- After an open that reports `SegmentAbsent` the handle is `NULL`, so a read returns `-1`
without a dereference and a close issues no `shmdt`. -/
theorem absent_open_then_read_close {R : Type} (gpsdata : gps_data_t R) (addr : Nat)
    (proc : Proc) (shared : shmexport_t R) :
    (gps_shm_read (gps_shm_open gpsdata (-1) addr proc).gpsdata
        (gps_shm_open gpsdata (-1) addr proc).proc shared).ret = some (-1) ∧
    (gps_shm_read (gps_shm_open gpsdata (-1) addr proc).gpsdata
        (gps_shm_open gpsdata (-1) addr proc).proc shared).derefs = [] ∧
    (gps_shm_close (gps_shm_open gpsdata (-1) addr proc).gpsdata
        (gps_shm_open gpsdata (-1) addr proc).proc).2 = proc := by
  simp [gps_shm_open, gps_shm_read, gps_shm_close, NULL]

/-! ## The consistency check -/

/-- C1: on an attached handle `gps_shm_read` returns 0 exactly when the value loaded from
`bookend1` before the copy equals the value loaded from `bookend2` after it, whatever the two
values and the copied payload are. -/
theorem gps_shm_read_success_iff {R : Type} (gpsdata : gps_data_t R) (proc : Proc)
    (shared : shmexport_t R) (h : Attached gpsdata proc) :
    (gps_shm_read gpsdata proc shared).ret = some 0 ↔ shared.bookend1 = shared.bookend2 := by
  rw [gps_shm_read_attached gpsdata proc shared h]
  by_cases hb : shared.bookend1 = shared.bookend2 <;> simp [hb]

/-- C1 at a pair straddling the wrap of a 32-bit counter: `INT_MIN` before, `INT_MAX` after. -/
theorem gps_shm_read_success_iff_witness :
    Attached opened.gpsdata opened.proc ∧
    ((gps_shm_read opened.gpsdata opened.proc
        { bookend1 := -2147483648, gpsdata := (seg37 0).gpsdata, bookend2 := 2147483647 }).ret
        = some 0 ↔ (-2147483648 : Int) = 2147483647) :=
  ⟨by decide, gps_shm_read_success_iff _ _ _ (by decide)⟩

/-- C2: a segment settled at any generation on which the writer has done step 2 and any part
of step 3, and not step 4, is read as `-1` (Inconsistent) through an attached handle, for every
counter width of at least one bit and every payload. -/
theorem gps_shm_read_in_transition {R : Type} (bits : Nat) (gpsdata : gps_data_t R)
    (proc : Proc) (seg : shmexport_t R) (payload : gps_data_t R) (hbits : 0 < bits)
    (h : Attached gpsdata proc) (hsettled : seg.bookend1 = seg.bookend2) :
    (gps_shm_read gpsdata proc (publish_step3 (publish_step2 bits seg) payload)).ret
      = some (-1) := by
  rw [gps_shm_read_attached gpsdata proc _ h]
  have hne : wrapInt bits (seg.bookend2 + 1) ≠ seg.bookend2 :=
    wrapInt_succ_ne bits hbits seg.bookend2
  simp [publish_step3, publish_step2, hsettled, hne]

/-- C2 at the maximum of a 32-bit counter: the segment is settled at `INT_MAX`, step 2 wraps
`bookend1` to `INT_MIN`. -/
theorem gps_shm_read_in_transition_witness :
    (0 < 32 ∧ Attached opened.gpsdata opened.proc ∧
      (seg37 2147483647).bookend1 = (seg37 2147483647).bookend2) ∧
    (publish_step2 32 (seg37 2147483647)).bookend1 = -2147483648 ∧
    (gps_shm_read opened.gpsdata opened.proc
      (publish_step3 (publish_step2 32 (seg37 2147483647)) torn67.gpsdata)).ret = some (-1) :=
  ⟨by decide, by decide,
    gps_shm_read_in_transition 32 _ _ _ _ (by decide) (by decide) (by decide)⟩

/-! ## What a successful read leaves with the caller -/

/-- C3 as stated fails: the segment settled at generation 5 with latitude 37.0000 is read with
success, and the caller's structure differs from the stored payload in `privdata`. -/
theorem gps_shm_read_not_bytewise :
    (gps_shm_read opened.gpsdata opened.proc (seg37 5)).ret = some 0 ∧
    (gps_shm_read opened.gpsdata opened.proc (seg37 5)).gpsdata ≠ (seg37 5).gpsdata ∧
    (gps_shm_read opened.gpsdata opened.proc (seg37 5)).gpsdata.privdata = 0x7f0000001000 ∧
    (seg37 5).gpsdata.privdata = 0 := by
  decide

/-- C3, amended: on an attached handle and a settled segment that nobody modifies during the
call, `gps_shm_read` returns 0 and the caller's structure equals the stored payload in every
member except `privdata`, which holds the handle's attachment. -/
theorem gps_shm_read_settled {R : Type} (gpsdata : gps_data_t R) (proc : Proc)
    (seg : shmexport_t R) (h : Attached gpsdata proc) (hsettled : seg.bookend1 = seg.bookend2) :
    (gps_shm_read gpsdata proc seg).ret = some 0 ∧
    (gps_shm_read gpsdata proc seg).gpsdata.fix = seg.gpsdata.fix ∧
    (gps_shm_read gpsdata proc seg).gpsdata.rest = seg.gpsdata.rest ∧
    (gps_shm_read gpsdata proc seg).gpsdata.privdata = gpsdata.privdata := by
  rw [gps_shm_read_attached gpsdata proc seg h]
  simp [hsettled]

/-- C3, amended, at generation 5 with latitude 37.0000. -/
theorem gps_shm_read_settled_witness :
    (Attached opened.gpsdata opened.proc ∧ (seg37 5).bookend1 = (seg37 5).bookend2) ∧
    (gps_shm_read opened.gpsdata opened.proc (seg37 5)).gpsdata.fix.latitude = lat37 ∧
    (gps_shm_read opened.gpsdata opened.proc (seg37 5)).ret = some 0 ∧
    (gps_shm_read opened.gpsdata opened.proc (seg37 5)).gpsdata.fix = (seg37 5).gpsdata.fix ∧
    (gps_shm_read opened.gpsdata opened.proc (seg37 5)).gpsdata.rest = (seg37 5).gpsdata.rest ∧
    (gps_shm_read opened.gpsdata opened.proc (seg37 5)).gpsdata.privdata
      = opened.gpsdata.privdata :=
  ⟨by decide, by decide, gps_shm_read_settled _ _ _ (by decide) (by decide)⟩

/-- C4 as stated fails: reads of the segment settled at generation 5 and at generation 6, same
payload, both succeed and give the caller the very same result, so no generation number is in
it. -/
theorem gps_shm_read_generation_not_returned :
    (seg37 5).bookend1 ≠ (seg37 6).bookend1 ∧
    (gps_shm_read opened.gpsdata opened.proc (seg37 5)).ret = some 0 ∧
    gps_shm_read opened.gpsdata opened.proc (seg37 5)
      = gps_shm_read opened.gpsdata opened.proc (seg37 6) := by
  decide

/-- C4, amended: a successful `gps_shm_read` on an attached handle has observed one generation
number in both bookends, `before = after = bookend1`, and returns 0 with the copied structure
and nothing else: the result is the same for every value of that generation. -/
theorem gps_shm_read_success_generation {R : Type} (gpsdata : gps_data_t R) (proc : Proc)
    (shared : shmexport_t R) (h : Attached gpsdata proc)
    (hok : (gps_shm_read gpsdata proc shared).ret = some 0) :
    shared.bookend2 = shared.bookend1 ∧
    ∀ gen : Int,
      gps_shm_read gpsdata proc { shared with bookend1 := gen, bookend2 := gen }
        = gps_shm_read gpsdata proc shared := by
  have heq : shared.bookend1 = shared.bookend2 := by
    rw [gps_shm_read_attached gpsdata proc shared h] at hok
    by_contra hne
    simp [hne] at hok
  refine ⟨heq.symm, fun gen => ?_⟩
  rw [gps_shm_read_attached gpsdata proc _ h, gps_shm_read_attached gpsdata proc shared h]
  simp [heq]

/-- C4, amended, at the segment settled at generation 5. -/
theorem gps_shm_read_success_generation_witness :
    (Attached opened.gpsdata opened.proc ∧
      (gps_shm_read opened.gpsdata opened.proc (seg37 5)).ret = some 0) ∧
    (seg37 5).bookend2 = (seg37 5).bookend1 ∧
    ∀ gen : Int,
      gps_shm_read opened.gpsdata opened.proc { seg37 5 with bookend1 := gen, bookend2 := gen }
        = gps_shm_read opened.gpsdata opened.proc (seg37 5) :=
  ⟨by decide, gps_shm_read_success_generation _ _ _ (by decide) (by decide)⟩

/-! ## Handles without a live attachment -/

/-- C5 at the failing input: a handle opened with success at `0x7f0000001000` and then closed
still holds that address, nothing is attached there any more, and `gps_shm_read` does not take
the `NULL` branch: it dereferences the stale address and returns nothing. -/
theorem gps_shm_read_after_close :
    opened.ret = 0 ∧
    (gps_shm_close opened.gpsdata opened.proc).1.privdata = 0x7f0000001000 ∧
    (gps_shm_close opened.gpsdata opened.proc).2.attached = [] ∧
    gps_shm_read (gps_shm_close opened.gpsdata opened.proc).1
        (gps_shm_close opened.gpsdata opened.proc).2 (seg37 5)
      = { ret := none, gpsdata := opened.gpsdata, derefs := [0x7f0000001000] } := by
  decide

/-- C6 at the failing input: after an open that returns `-2` the handle holds `(void *)-1`,
not `NULL`, and `gps_shm_read` dereferences it; after an open that returns `-1` the handle is
`NULL` and the read returns `-1` without a dereference. -/
theorem gps_shm_read_after_denied_open :
    denied.ret = -2 ∧
    denied.gpsdata.privdata = SHM_FAILED ∧
    denied.proc.attached = [] ∧
    gps_shm_read denied.gpsdata denied.proc (seg37 5)
      = { ret := none, gpsdata := denied.gpsdata, derefs := [SHM_FAILED] } ∧
    absent.ret = -1 ∧
    gps_shm_read absent.gpsdata absent.proc (seg37 5)
      = { ret := some (-1), gpsdata := absent.gpsdata, derefs := [] } := by
  decide

/-- C7 at the failing inputs: two closes of a handle opened at `0x7f0000001000` issue `shmdt`
twice on that address, and a close after an open that returned `-2` issues `shmdt` on
`(void *)-1`; a close after an open that returned `-1` issues none. -/
theorem gps_shm_close_twice :
    (gps_shm_close (gps_shm_close opened.gpsdata opened.proc).1
        (gps_shm_close opened.gpsdata opened.proc).2).2.shmdt_calls
      = [0x7f0000001000, 0x7f0000001000] ∧
    denied.ret = -2 ∧
    (gps_shm_close denied.gpsdata denied.proc).2.shmdt_calls = [SHM_FAILED] ∧
    absent.ret = -1 ∧
    (gps_shm_close absent.gpsdata absent.proc).2.shmdt_calls = [] := by
  decide

/-! ## Results of open -/

/-- C8: with the result `shmid` of the lookup and the result `addr` of the attach as inputs,
`addr` being `(void *)-1` or an aligned address, `gps_shm_open` returns `-1` exactly when the
lookup failed, `-2` exactly when the lookup succeeded and the attach failed, 0 exactly when
both succeeded; the three values are pairwise distinct; on `-1` the handle is `NULL`; on 0 the
handle is `addr`; and no member other than `privdata` is written. -/
theorem gps_shm_open_results {R : Type} (gpsdata : gps_data_t R) (shmid : Int) (addr : Nat)
    (proc : Proc) (haddr : shmat_can_return addr) :
    ((gps_shm_open gpsdata shmid addr proc).ret = -1 ↔ shmid = -1) ∧
    ((gps_shm_open gpsdata shmid addr proc).ret = -2 ↔ shmid ≠ -1 ∧ addr = SHM_FAILED) ∧
    ((gps_shm_open gpsdata shmid addr proc).ret = 0 ↔ shmid ≠ -1 ∧ addr ≠ SHM_FAILED) ∧
    ((-1 : Int) ≠ -2 ∧ (-1 : Int) ≠ 0 ∧ (-2 : Int) ≠ 0) ∧
    ((gps_shm_open gpsdata shmid addr proc).ret = -1 →
      (gps_shm_open gpsdata shmid addr proc).gpsdata.privdata = NULL) ∧
    ((gps_shm_open gpsdata shmid addr proc).ret = 0 →
      (gps_shm_open gpsdata shmid addr proc).gpsdata.privdata = addr) ∧
    (gps_shm_open gpsdata shmid addr proc).gpsdata.fix = gpsdata.fix ∧
    (gps_shm_open gpsdata shmid addr proc).gpsdata.rest = gpsdata.rest := by
  have hcast := int_of_ptr_can_return addr haddr
  by_cases hid : shmid = -1
  · simp [gps_shm_open, hid]
  · by_cases hf : addr = SHM_FAILED
    · have hc : int_of_ptr addr = -1 := hcast.mpr hf
      simp [gps_shm_open, hid, hf, hc, int_of_ptr_failed]
    · have hc : ¬ int_of_ptr addr = -1 := fun hc => hf (hcast.mp hc)
      simp [gps_shm_open, hid, hf, hc]

/-- C8 at a successful lookup (id 1) and a successful attach at `0x7f0000001000`. -/
theorem gps_shm_open_results_witness :
    shmat_can_return 0x7f0000001000 ∧
    (gps_shm_open fresh 1 0x7f0000001000 proc0).ret = 0 ∧
    (gps_shm_open fresh 1 0x7f0000001000 proc0).gpsdata.privdata = 0x7f0000001000 :=
  ⟨by decide, by decide,
    (gps_shm_open_results fresh 1 0x7f0000001000 proc0 (by decide)).2.2.2.2.2.1 (by decide)⟩

/-! ## Failure values of read -/

/-- C9 as stated fails: the read on a `NULL` handle and the torn read (6 before, 7 after) on
an attached handle return the same value. -/
theorem gps_shm_read_failures_coincide :
    absent.gpsdata.privdata = NULL ∧
    Attached opened.gpsdata opened.proc ∧
    torn67.bookend1 ≠ torn67.bookend2 ∧
    (gps_shm_read absent.gpsdata absent.proc torn67).ret
      = (gps_shm_read opened.gpsdata opened.proc torn67).ret := by
  decide

/-- C9, amended: `gps_shm_read` reports NotAttached (a `NULL` handle) and Inconsistent (an
attached handle, `before != after`) by the one value `-1`, which differs from the success value
0; what tells the two apart is the handle, `NULL` in the first case and not in the second. -/
theorem gps_shm_read_failure_value {R : Type} (unattached : gps_data_t R) (proc : Proc)
    (shared : shmexport_t R) (gpsdata : gps_data_t R) (proc1 : Proc) (shared1 : shmexport_t R)
    (hnull : unattached.privdata = NULL) (h : Attached gpsdata proc1)
    (htorn : shared1.bookend1 ≠ shared1.bookend2) :
    (gps_shm_read unattached proc shared).ret = some (-1) ∧
    (gps_shm_read gpsdata proc1 shared1).ret = some (-1) ∧
    (gps_shm_read unattached proc shared).ret ≠ some 0 ∧
    (gps_shm_read unattached proc shared).gpsdata.privdata = NULL ∧
    (gps_shm_read gpsdata proc1 shared1).gpsdata.privdata ≠ NULL := by
  rw [gps_shm_read_null unattached proc shared hnull,
    gps_shm_read_attached gpsdata proc1 shared1 h]
  simp [htorn, hnull, h.1]

/-- C9, amended, at a handle whose open failed with `-1` and at the torn read 6, 7. -/
theorem gps_shm_read_failure_value_witness :
    (absent.gpsdata.privdata = NULL ∧ Attached opened.gpsdata opened.proc ∧
      torn67.bookend1 ≠ torn67.bookend2) ∧
    (gps_shm_read absent.gpsdata absent.proc (seg37 5)).ret = some (-1) ∧
    (gps_shm_read opened.gpsdata opened.proc torn67).ret = some (-1) ∧
    (gps_shm_read absent.gpsdata absent.proc (seg37 5)).ret ≠ some 0 ∧
    (gps_shm_read absent.gpsdata absent.proc (seg37 5)).gpsdata.privdata = NULL ∧
    (gps_shm_read opened.gpsdata opened.proc torn67).gpsdata.privdata ≠ NULL :=
  ⟨by decide,
    gps_shm_read_failure_value _ _ _ _ _ _ (by decide) (by decide) (by decide)⟩

/-! ## The attachment across reads -/

/-- C10: on an attached handle `gps_shm_read` returns 0 or `-1`, and in both cases the handle's
`privdata` after the call is its `privdata` before it, whatever `privdata` the copied payload
carries; the handle stays attached, every access of the call goes through that address, and
after any number of successive reads the handle still holds it. -/
theorem gps_shm_read_keeps_attachment {R : Type} (gpsdata : gps_data_t R) (proc : Proc)
    (shared : shmexport_t R) (h : Attached gpsdata proc) :
    ((gps_shm_read gpsdata proc shared).ret = some 0 ∨
      (gps_shm_read gpsdata proc shared).ret = some (-1)) ∧
    (gps_shm_read gpsdata proc shared).gpsdata.privdata = gpsdata.privdata ∧
    Attached (gps_shm_read gpsdata proc shared).gpsdata proc ∧
    (∀ a ∈ (gps_shm_read gpsdata proc shared).derefs, a = gpsdata.privdata) ∧
    ∀ obs : List (shmexport_t R), (read_all gpsdata proc obs).privdata = gpsdata.privdata := by
  refine ⟨?_, gps_shm_read_privdata gpsdata proc shared, ?_, ?_, fun obs =>
    read_all_privdata proc obs gpsdata⟩
  · rw [gps_shm_read_attached gpsdata proc shared h]
    by_cases hb : shared.bookend1 = shared.bookend2 <;> simp [hb]
  · unfold Attached
    rw [gps_shm_read_privdata]
    exact h
  · rw [gps_shm_read_attached gpsdata proc shared h]
    simp

/-- C10 at a torn observation whose payload carries the `privdata` value `0x1234`, followed by
a settled one whose payload carries `NULL`. -/
theorem gps_shm_read_keeps_attachment_witness :
    Attached opened.gpsdata opened.proc ∧
    torn67.gpsdata.privdata = 0x1234 ∧
    (gps_shm_read opened.gpsdata opened.proc torn67).gpsdata.privdata = 0x7f0000001000 ∧
    (read_all opened.gpsdata opened.proc [torn67, seg37 7]).privdata = 0x7f0000001000 :=
  ⟨by decide, by decide,
    (gps_shm_read_keeps_attachment opened.gpsdata opened.proc torn67 (by decide)).2.1,
    (gps_shm_read_keeps_attachment opened.gpsdata opened.proc torn67 (by decide)).2.2.2.2
      [torn67, seg37 7]⟩

end GpsShm
